import Mathlib

/-!
Shallow embedding of the health-chatbot repository (conversation state
machine, assessment scoring pipeline, session persistence filter and the
air-quality station computations), together with theorems settling the
frozen claims about it.

Sources embedded: src/services/state_manager.py, src/data/questions.py,
src/services/assessment_service.py, src/handlers/message_handler.py,
src/services/dust_service.py.  The FAQ table (data/faq.py) and the
recommendation tier table (data/recommendations.py) are imported by the
source but are not under src/; they are modelled from the spec and kept
abstract as parameters where their content is irrelevant.
-/

namespace HealthChatbot

/-! ## Python-dict helpers

The `answers` field of a session is a Python `dict` with unique keys.  It is
embedded as an association list; assignment `d[k] = v` overwrites the
existing binding in place or appends a fresh one at the end. -/

/-- Embedding of Python dict assignment `d[k] = v` on a unique-key
association list: overwrite the binding for `k` in place, or append. -/
def dictSet : List (String × Int) → String → Int → List (String × Int)
  | [], k, v => [(k, v)]
  | p :: rest, k, v => if p.1 = k then (k, v) :: rest else p :: dictSet rest k v

/-- Embedding of Python `sum(d.values())`. -/
def dictValuesSum (m : List (String × Int)) : Int :=
  (m.map Prod.snd).sum

/-- Embedding of Python dict lookup `d.get(k)`. -/
def dictGet (m : List (String × Int)) (k : String) : Option Int :=
  (m.find? (fun p => p.1 = k)).map Prod.snd

/-! ## Substring containment (Python `kw in text`) -/

/-- Does `needle` occur at the start of `hay`? -/
def startsWithChars : List Char → List Char → Bool
  | [], _ => true
  | _ :: _, [] => false
  | a :: as, b :: bs => a == b && startsWithChars as bs

/-- Does `needle` occur anywhere in `hay`?  Embeds Python `needle in hay`. -/
def occursInChars (needle : List Char) : List Char → Bool
  | [] => startsWithChars needle []
  | c :: rest => startsWithChars needle (c :: rest) || occursInChars needle rest

/-- Python substring test `needle in hay` on strings. -/
def strContainsSub (hay needle : String) : Bool :=
  occursInChars needle.data hay.data

/-- Embedding of Python `str.strip()` on a character list: drop leading
and trailing whitespace. -/
def stripChars (cs : List Char) : List Char :=
  ((cs.dropWhile Char.isWhitespace).reverse.dropWhile Char.isWhitespace).reverse

/-- Embedding of Python `text.lower().strip()` (lower-casing is modelled
on the ASCII letters appearing in the keyword lists). -/
def pyLowerStrip (text : String) : String :=
  String.mk (stripChars (text.data.map Char.toLower))

/-- Embedding of Python `int(str)` on the inputs the FAQ menu accepts:
whitespace stripped, optional sign, at least one digit. -/
def pyInt (s : String) : Option Int :=
  let cs := stripChars s.data
  let signed : Int × List Char :=
    match cs with
    | '-' :: rest => (-1, rest)
    | '+' :: rest => (1, rest)
    | _ => (1, cs)
  if signed.2 ≠ [] ∧ signed.2.all Char.isDigit then
    some (signed.1
      * (signed.2.foldl (fun acc c => acc * 10 + (c.toNat - 48)) 0 : Nat))
  else none

/-! ## Conversation state and sessions (src/services/state_manager.py) -/

/-- Embedding of `ConversationState` (all five enum members, including the
two reserved ones no transition targets). -/
inductive ConversationState where
  | IDLE
  | ASSESSMENT
  | WAITING_CONFIRM
  | FAQ_MENU
  | AWAITING_LOCATION
  deriving DecidableEq, Repr

/-- Embedding of `UserSession`.  `last_activity` is a wall-clock timestamp
the code refreshes on every read/write; it influences only the load-time
expiry filter, which is modelled separately on `StoredSession`, so it is
omitted from the in-memory record. -/
structure UserSession where
  user_id : String
  state : ConversationState
  current_question_index : Nat
  answers : List (String × Int)
  total_score : Int
  deriving DecidableEq, Repr

/-- Embedding of `UserSession.__init__`. -/
def freshSession (uid : String) : UserSession :=
  { user_id := uid
    state := ConversationState.IDLE
    current_question_index := 0
    answers := []
    total_score := 0 }

/-- Embedding of `UserSession.reset`. -/
def resetSession (s : UserSession) : UserSession :=
  { s with
    state := ConversationState.IDLE
    current_question_index := 0
    answers := []
    total_score := 0 }

/-- Embedding of the per-session content persisted by `UserSession.to_dict`
(state, index, answers, total score, last-activity timestamp).  The
timestamp is modelled as integer microseconds since an arbitrary epoch
(the exact resolution of a CPython datetime). -/
structure StoredSession where
  user_id : String
  state : ConversationState
  current_question_index : Nat
  answers : List (String × Int)
  total_score : Int
  last_activity : Int
  deriving DecidableEq, Repr

/-- Embedding of `StateManager.SESSION_TIMEOUT_HOURS` converted to
microseconds (`timedelta(hours=24)`). -/
def sessionTimeout : Int := 24 * 3600 * 1000000

/-- Embedding of the expiry filter in `StateManager._load_states`: a stored
session enters the in-memory set iff
`now - session.last_activity < timedelta(hours=24)` (strict comparison). -/
def loadStates (now : Int) (file : List (String × StoredSession)) :
    List (String × StoredSession) :=
  file.filter (fun p => now - p.2.last_activity < sessionTimeout)

/-- Embedding of `StateManager.add_answer` restricted to its effect on the
session it mutates: assign `answers[question_id] = score`, then recompute
`total_score = sum(answers.values())`. -/
def add_answer (s : UserSession) (question_id : String) (score : Int) :
    UserSession :=
  let answers := dictSet s.answers question_id score
  { s with answers := answers, total_score := dictValuesSum answers }

/-! ## Question data (src/data/questions.py) -/

/-- One option of a question: label text, value tag, integer score. -/
structure QOption where
  label : String
  value : String
  score : Int
  deriving DecidableEq, Repr

/-- One assessment question. -/
structure Question where
  id : String
  question : String
  options : List QOption
  deriving DecidableEq, Repr

/-- Embedding of `SYMPTOM_QUESTIONS`. -/
def SYMPTOM_QUESTIONS : List Question :=
  [ { id := "cough"
      question := "ท่านมีอาการไอหรือไม่คะ?"
      options :=
        [ { label := "1. ไม่มี", value := "none", score := 0 }
        , { label := "2. มีเล็กน้อย", value := "mild", score := 1 }
        , { label := "3. มีมาก", value := "severe", score := 2 } ] }
  , { id := "breathing"
      question := "ท่านมีอาการหายใจลำบาก แน่นหน้าอก หรือหอบเหนื่อยหรือไม่คะ?"
      options :=
        [ { label := "1. ไม่มี", value := "none", score := 0 }
        , { label := "2. มีเล็กน้อย", value := "mild", score := 1 }
        , { label := "3. มีมาก", value := "severe", score := 2 } ] }
  , { id := "eyes"
      question := "ท่านมีอาการระคายเคืองตา แสบตา หรือน้ำตาไหลหรือไม่คะ?"
      options :=
        [ { label := "1. ไม่มี", value := "none", score := 0 }
        , { label := "2. มีเล็กน้อย", value := "mild", score := 1 }
        , { label := "3. มีมาก", value := "severe", score := 2 } ] }
  , { id := "nose"
      question := "ท่านมีอาการคัดจมูก น้ำมูกไหล หรือจามหรือไม่คะ?"
      options :=
        [ { label := "1. ไม่มี", value := "none", score := 0 }
        , { label := "2. มีเล็กน้อย", value := "mild", score := 1 }
        , { label := "3. มีมาก", value := "severe", score := 2 } ] }
  , { id := "skin"
      question := "ท่านมีอาการผื่นคัน หรือระคายเคืองผิวหนังหรือไม่คะ?"
      options :=
        [ { label := "1. ไม่มี", value := "none", score := 0 }
        , { label := "2. มีเล็กน้อย", value := "mild", score := 1 }
        , { label := "3. มีมาก", value := "severe", score := 2 } ] }
  , { id := "headache"
      question := "ท่านมีอาการปวดศีรษะ มึนงง หรือเวียนศีรษะหรือไม่คะ?"
      options :=
        [ { label := "1. ไม่มี", value := "none", score := 0 }
        , { label := "2. มีเล็กน้อย", value := "mild", score := 1 }
        , { label := "3. มีมาก", value := "severe", score := 2 } ] } ]

/-- Embedding of `RISK_QUESTIONS`. -/
def RISK_QUESTIONS : List Question :=
  [ { id := "age"
      question := "ท่านอายุอยู่ในช่วงใดคะ?"
      options :=
        [ { label := "1. ต่ำกว่า 18 ปี", value := "child", score := 1 }
        , { label := "2. 18-60 ปี", value := "adult", score := 0 }
        , { label := "3. มากกว่า 60 ปี", value := "elderly", score := 2 } ] }
  , { id := "condition"
      question := "ท่านมีโรคประจำตัวหรือไม่คะ?"
      options :=
        [ { label := "1. ไม่มี", value := "none", score := 0 }
        , { label := "2. โรคหอบหืด/ภูมิแพ้", value := "asthma", score := 2 }
        , { label := "3. โรคหัวใจ", value := "heart", score := 2 }
        , { label := "4. โรคปอด/ถุงลมโป่งพอง", value := "lung", score := 2 }
        , { label := "5. อื่นๆ", value := "other", score := 1 } ] }
  , { id := "outdoor"
      question := "ท่านต้องทำงานหรือใช้เวลากลางแจ้งเป็นประจำหรือไม่คะ?"
      options :=
        [ { label := "1. ไม่ใช่", value := "no", score := 0 }
        , { label := "2. ใช่", value := "yes", score := 1 } ] } ]

/-- Embedding of `ALL_QUESTIONS = SYMPTOM_QUESTIONS + RISK_QUESTIONS`. -/
def ALL_QUESTIONS : List Question :=
  SYMPTOM_QUESTIONS ++ RISK_QUESTIONS

/-- Embedding of `get_question`: the question at `index`, or none when the
index is past the end. -/
def get_question (index : Nat) : Option Question :=
  ALL_QUESTIONS.get? index

/-- Embedding of `get_total_questions` (= 9). -/
def get_total_questions : Nat :=
  ALL_QUESTIONS.length

/-! ## Answer parsing (AssessmentService._parse_answer) -/

/-- The scanning loop of `_parse_answer`: walk the characters; at each
digit `c`, if `int(c)` lies in `[1, maxOptions]` return it, otherwise keep
scanning.  (the Python `isdigit` method also accepts non-ASCII decimal digits; the
embedding covers the ASCII digits the option labels prompt for.) -/
def scanAnswerChars (maxOptions : Nat) : List Char → Option Nat
  | [] => none
  | c :: rest =>
    if c.isDigit then
      let num := c.toNat - 48
      if 1 ≤ num ∧ num ≤ maxOptions then some num
      else scanAnswerChars maxOptions rest
    else scanAnswerChars maxOptions rest

/-- Embedding of `AssessmentService._parse_answer`: strip the text, then
scan it with `scanAnswerChars`. -/
def parse_answer (answer : String) (maxOptions : Nat) : Option Nat :=
  scanAnswerChars maxOptions (stripChars answer.data)

/-- Modelled from the spec for refinement comparison only (this is the
description of the parser given by the spec, not the code of the source): find the FIRST
digit of the stripped text; succeed iff that one digit, as a 1-based
option index, lies within `[1, maxOptions]`. -/
def specParseAnswer (answer : String) (maxOptions : Nat) : Option Nat :=
  match (stripChars answer.data).find? Char.isDigit with
  | some c =>
    let num := c.toNat - 48
    if 1 ≤ num ∧ num ≤ maxOptions then some num else none
  | none => none

/-! ## Static tables not under src/ (modelled from the spec)

`data/recommendations.py` and `data/faq.py` are imported by the source but
are absent from src/.  They are modelled from the spec with their tables
kept abstract, gathered in an `Env` threaded through the services. -/

/-- One recommendation tier: inclusive upper bound of its score range
(none for the unbounded last tier) and its advice message. -/
structure RecTier where
  maxScore : Option Int
  message : String
  deriving DecidableEq, Repr

/-- One FAQ entry: its keyword set and its answer text. -/
structure FaqEntry where
  keywords : List String
  answer : String
  deriving DecidableEq, Repr

/-- The static tables whose content is not under src/. -/
structure Env where
  tiers : List RecTier
  faqs : List FaqEntry
  deriving DecidableEq, Repr

/-- Modelled from the spec: `data/recommendations.py` is not under src/.
`recommend(totalScore)` finds the first tier whose inclusive range contains
the score over a contiguous ascending partition, the last tier unbounded,
and yields its advice message. -/
def get_recommendation (tiers : List RecTier) (score : Int) : String :=
  match tiers with
  | [] => ""
  | t :: rest =>
    match t.maxScore with
    | none => t.message
    | some m => if score ≤ m then t.message else get_recommendation rest score

/-- Modelled from the spec: `data/faq.py` is not under src/.
`get_faq_by_number(n)` treats `n` as a 1-based menu index into the fixed
FAQ list. -/
def get_faq_by_number (faqs : List FaqEntry) (n : Int) : Option FaqEntry :=
  if 1 ≤ n then faqs.get? (n - 1).toNat else none

/-- Modelled from the spec: `data/faq.py` is not under src/.
`find_faq(query)` performs case-insensitive keyword containment against
the keyword set of each entry, first match in list order wins. -/
def find_faq (faqs : List FaqEntry) (query : String) : Option FaqEntry :=
  faqs.find? (fun e =>
    e.keywords.any (fun kw => strContainsSub (pyLowerStrip query) kw))

/-! ## Assessment service (src/services/assessment_service.py) -/

/-- Embedding of `AssessmentService._format_question`: progress line,
question text, newline-joined option labels, numeric-answer instruction;
none when the index is out of range. -/
def format_question (index : Nat) : Option String :=
  match get_question index with
  | none => none
  | some question =>
    let progress :=
      "📝 คำถามที่ " ++ toString (index + 1) ++ "/"
        ++ toString get_total_questions ++ "\n\n"
    let qText := question.question ++ "\n\n"
    let options := String.intercalate "\n" (question.options.map QOption.label)
    some (progress ++ qText ++ options ++ "\n\nกรุณาตอบเป็นตัวเลขค่ะ")

/-- Embedding of `AssessmentService.start_assessment`: reset the session,
set state to ASSESSMENT and index to 0, return the first question (index 0
always formats, so the Option is defaulted). -/
def start_assessment (s : UserSession) : UserSession × String :=
  let s1 := resetSession s
  let s2 := { s1 with
    state := ConversationState.ASSESSMENT
    current_question_index := 0 }
  (s2, (format_question 0).getD "")

/-- Embedding of `AssessmentService._complete_assessment`: read the total
score, look up the recommendation, set state back to IDLE (the answers
mapping, index and total score are left as they are), and format the
result text with the literal total score appended. -/
def complete_assessment (env : Env) (s : UserSession) : UserSession × String :=
  let total := s.total_score
  let recommendation := get_recommendation env.tiers total
  let s1 := { s with state := ConversationState.IDLE }
  let result :=
    recommendation
      ++ "\n\n📋 คะแนนรวม: " ++ toString total ++ " คะแนน"
      ++ "\n\nพิมพ์ \x27ประเมินอาการ\x27 เพื่อประเมินใหม่"
      ++ "\nหรือถามคำถามเกี่ยวกับ PM2.5 ได้เลยค่ะ"
  (s1, result)

/-- Embedding of `AssessmentService.process_answer`, returning the updated
session together with `(response_message, is_assessment_complete)`.  The
response is none exactly where Python returns `None` (session not in
assessment).  The option-list indexing `question["options"][answer_num-1]`
would raise IndexError out of bounds; that branch returns the session
unchanged and is proved unreachable. -/
def process_answer (env : Env) (s : UserSession) (answer : String) :
    UserSession × Option String × Bool :=
  if s.state ≠ ConversationState.ASSESSMENT then (s, none, false)
  else
    match get_question s.current_question_index with
    | none =>
      let r := complete_assessment env s
      (r.1, some r.2, true)
    | some question =>
      match parse_answer answer question.options.length with
      | none =>
        (s, some ("กรุณาตอบเป็นตัวเลข 1-" ++ toString question.options.length
          ++ " ค่ะ"), false)
      | some answerNum =>
        match question.options.get? (answerNum - 1) with
        | none => (s, none, false)
        | some selectedOption =>
          let s1 := add_answer s question.id selectedOption.score
          let s2 := { s1 with
            current_question_index := s1.current_question_index + 1 }
          if s2.current_question_index ≥ get_total_questions then
            let r := complete_assessment env s2
            (r.1, some r.2, true)
          else
            (s2, some ((format_question s2.current_question_index).getD ""),
              false)

/-- Embedding of `AssessmentService.cancel_assessment`: reset the session
and return the fixed cancellation acknowledgment. -/
def cancel_assessment (s : UserSession) : UserSession × String :=
  (resetSession s,
    "ยกเลิกการประเมินแล้วค่ะ\n\nพิมพ์ \x27ประเมินอาการ\x27 เพื่อเริ่มใหม่ หรือถามคำถามเกี่ยวกับ PM2.5 ได้เลยค่ะ")

/-- Embedding of `AssessmentService.handle_faq_query`: if the stripped
query parses entirely as an integer and names a FAQ entry, answer it;
otherwise fall back to keyword search. -/
def handle_faq_query (faqs : List FaqEntry) (query : String) : Option String :=
  let byNumber :=
    match pyInt query with
    | some n => get_faq_by_number faqs n
    | none => none
  match byNumber with
  | some faq => some faq.answer
  | none =>
    match find_faq faqs query with
    | some faq => some faq.answer
    | none => none

/-! ## Message handler (src/handlers/message_handler.py) -/

/-- Embedding of `MessageHandler.START_KEYWORDS`. -/
def START_KEYWORDS : List String :=
  ["ประเมินอาการ", "เริ่มประเมิน", "ตรวจอาการ", "start", "assess", "วินิจฉัย"]

/-- Embedding of `MessageHandler.CANCEL_KEYWORDS`. -/
def CANCEL_KEYWORDS : List String :=
  ["ยกเลิก", "cancel", "หยุด", "เลิก", "ออก"]

/-- Embedding of `MessageHandler.GREETING_KEYWORDS`. -/
def GREETING_KEYWORDS : List String :=
  ["สวัสดี", "hello", "hi", "หวัดดี", "ดีครับ", "ดีค่ะ"]

/-- Embedding of `MessageHandler.HELP_KEYWORDS`. -/
def HELP_KEYWORDS : List String :=
  ["help", "ช่วย", "วิธี", "ใช้งาน", "menu", "เมนู"]

/-- Embedding of `MessageHandler.CHECK_DUST_KEYWORDS`. -/
def CHECK_DUST_KEYWORDS : List String :=
  ["ตรวจสอบค่าฝุ่น", "เช็คค่าฝุ่น", "ค่าฝุ่นวันนี้", "ดูค่าฝุ่น", "pm2.5 วันนี้",
    "ค่าฝุ่นตอนนี้", "aqi"]

/-- Embedding of `MessageHandler._matches_keywords`: containment of any
keyword in the text. -/
def matches_keywords (text : String) (keywords : List String) : Bool :=
  keywords.any (fun kw => strContainsSub text kw)

/-- Embedding of `MessageHandler._get_welcome_message`. -/
def welcomeMessage : String :=
  "สวัสดีค่ะ ยินดีต้อนรับสู่ระบบให้คำปรึกษาเรื่องฝุ่น PM2.5 ค่ะ\n\nสามารถถามเกี่ยวกับฝุ่น PM2.5 ได้เลยค่ะ เช่น\n• PM2.5 คืออะไร\n• หน้ากากแบบไหนดี\n• วิธีป้องกันตัวเอง\n\nหรือพิมพ์ \x27ตรวจสอบค่าฝุ่น\x27 เพื่อตรวจสอบค่าฝุ่นจากตำแหน่งที่ตั้ง\n\nหรือพิมพ์ \x27ประเมินอาการ\x27 เพื่อประเมินอาการสุขภาพค่ะ\n\n⚠️ นี่เป็นการให้คำปรึกษาเบื้องต้น ไม่สามารถใช้แทนการวินิจฉัยจากแพทย์ได้นะคะ"

/-- Embedding of `MessageHandler._get_help_message`. -/
def helpMessage : String :=
  "วิธีใช้งาน:\n\n💬 ถามคำถาม:\n   ถามเกี่ยวกับ PM2.5 ได้เลยค่ะ เช่น\n   \"PM2.5 คืออะไร\"\n   \"ค่าฝุ่นเท่าไหร่ถึงอันตราย\"\n   \"หน้ากากแบบไหนป้องกันได้\"\n\n📍 ตรวจสอบค่าฝุ่น:\n   พิมพ์ \x27ตรวจสอบค่าฝุ่น\x27 เพื่อดูค่าฝุ่นจากตำแหน่งที่ตั้ง\n\n📋 ประเมินอาการ:\n   พิมพ์ \x27ประเมินอาการ\x27 เพื่อเริ่มประเมินอาการ\n   ตอบคำถาม 9 ข้อ แล้วรับคำแนะนำค่ะ\n\n🚫 ยกเลิก:\n   พิมพ์ \x27ยกเลิก\x27 เพื่อยกเลิกการประเมิน\n\nหากมีอาการรุนแรง กรุณาพบแพทย์ค่ะ\n📞 สายด่วนสุขภาพ: 1330"

/-- Embedding of `MessageHandler._get_default_message`. -/
def defaultMessage : String :=
  "ขออภัยค่ะ ไม่พบข้อมูลที่ตรงกับคำถาม\n\nลองถามใหม่ เช่น:\n• \"PM2.5 คืออะไร\"\n• \"หน้ากากแบบไหนดี\"\n• \"กลุ่มเสี่ยงมีใครบ้าง\"\n• \"วิธีลดฝุ่นในบ้าน\"\n\nหรือพิมพ์ \x27ตรวจสอบค่าฝุ่น\x27 หรือ \x27ประเมินอาการ\x27 ค่ะ"

/-- Embedding of `MessageHandler._get_location_request_message`. -/
def locationRequestMessage : String :=
  "📍 กรุณาแชร์ตำแหน่งที่ตั้งของคุณค่ะ\n\nวิธีแชร์ตำแหน่ง:\n1. กดปุ่ม + ที่มุมล่างซ้าย\n2. เลือก \"ตำแหน่ง\" (Location)\n3. เลือกตำแหน่งปัจจุบันหรือค้นหาสถานที่\n4. กด \"แชร์\" (Share)\n\nพิมพ์ \x27ยกเลิก\x27 เพื่อยกเลิกค่ะ"

/-- The cancel acknowledgment of the awaiting-location branch of
`handle_message`. -/
def cancelDustCheckMessage : String :=
  "ยกเลิกการตรวจสอบค่าฝุ่นแล้วค่ะ\n\nสามารถถามคำถามเกี่ยวกับ PM2.5 ได้เลยค่ะ"

/-- The tail of `MessageHandler.handle_message` after the
assessment-specific branches: the awaiting-location reminder, then the
greeting / help / check-dust / start / FAQ / default cascade, evaluated
top to bottom exactly as in the source. -/
def handleTextTail (env : Env) (s : UserSession) (textLower text : String) :
    UserSession × String :=
  if s.state = ConversationState.AWAITING_LOCATION then
    (s, locationRequestMessage)
  else if matches_keywords textLower GREETING_KEYWORDS then
    (s, welcomeMessage)
  else if matches_keywords textLower HELP_KEYWORDS then
    (s, helpMessage)
  else if matches_keywords textLower CHECK_DUST_KEYWORDS then
    ({ s with state := ConversationState.AWAITING_LOCATION },
      locationRequestMessage)
  else if matches_keywords textLower START_KEYWORDS then
    start_assessment s
  else
    match handle_faq_query env.faqs text with
    | some response =>
      if response ≠ "" then (s, response) else (s, defaultMessage)
    | none => (s, defaultMessage)

/-- Embedding of `MessageHandler.handle_message`: lower-case and strip the
text, handle cancel during assessment or awaiting-location, delegate
assessment answers to `process_answer` (falling through only if its
response is Python-falsy), then the remaining keyword cascade. -/
def handle_message (env : Env) (s : UserSession) (text : String) :
    UserSession × String :=
  let textLower := pyLowerStrip text
  if (s.state = ConversationState.ASSESSMENT
        ∨ s.state = ConversationState.AWAITING_LOCATION)
      ∧ matches_keywords textLower CANCEL_KEYWORDS then
    if s.state = ConversationState.ASSESSMENT then
      cancel_assessment s
    else
      ({ s with state := ConversationState.IDLE }, cancelDustCheckMessage)
  else if s.state = ConversationState.ASSESSMENT then
    let r := process_answer env s text
    match r.2.1 with
    | some response =>
      if response ≠ "" then (r.1, response)
      else handleTextTail env r.1 textLower text
    | none => handleTextTail env r.1 textLower text
  else
    handleTextTail env s textLower text

/-! ## Dust / air-quality service (src/services/dust_service.py)

Station records come from a JSON API; the fields the code branches on are
embedded as a small JSON-scalar type so that Python truthiness and
`float(...)` conversion (with its ValueError/TypeError) are explicit. -/

/-- A JSON scalar as stored in a station record: null / missing, a string,
or a number. -/
inductive JVal where
  | jnull
  | jstr (s : String)
  | jnum (q : Rat)
  deriving DecidableEq, Repr

/-- Python truthiness of a `JVal`: `None`, the empty string and the number
0 are falsy. -/
def JVal.truthy : JVal → Bool
  | JVal.jnull => false
  | JVal.jstr s => s ≠ ""
  | JVal.jnum q => q ≠ 0

/-- Model of Python `float(literal)` on the plain decimal literals the
data source emits: optional sign, digits, optional single fraction part,
surrounding whitespace stripped.  Exponent forms, `inf` and `nan` are not
modelled. -/
def parsePyFloat (s : String) : Option Rat :=
  let cs := stripChars s.data
  let signed : Rat × List Char :=
    match cs with
    | '-' :: rest => (-1, rest)
    | '+' :: rest => (1, rest)
    | _ => (1, cs)
  let sign := signed.1
  let body := signed.2
  let intPart := body.takeWhile Char.isDigit
  let rest := body.dropWhile Char.isDigit
  let intVal : Rat :=
    (intPart.foldl (fun acc c => acc * 10 + (c.toNat - 48)) 0 : Nat)
  match rest with
  | [] => if intPart.isEmpty then none else some (sign * intVal)
  | '.' :: frac =>
    if frac.all Char.isDigit ∧ ¬(intPart.isEmpty ∧ frac.isEmpty) then
      let fracVal : Rat :=
        (frac.foldl (fun acc c => acc * 10 + (c.toNat - 48)) 0 : Nat)
      some (sign * (intVal + fracVal / (10 : Rat) ^ frac.length))
    else none
  | _ => none

/-- Python `float(x)` on a JSON scalar: `float(None)` raises TypeError
(none), an unparsable string raises ValueError (none), a number converts. -/
def JVal.toFloat : JVal → Option Rat
  | JVal.jnull => none
  | JVal.jstr s => parsePyFloat s
  | JVal.jnum q => some q

/-- Nearest integer with ties to even, as Python `round` on exact values. -/
def roundHalfEven (x : Rat) : Int :=
  let f := x.floor
  let r := x - f
  if r < 1/2 then f
  else if 1/2 < r then f + 1
  else if f % 2 = 0 then f else f + 1

/-- Python `round(x, 1)` on exact values (binary floating-point artifacts
are not modelled). -/
def roundTo1 (x : Rat) : Rat :=
  (roundHalfEven (x * 10) : Rat) / 10

/-- One station record, restricted to the fields the source reads:
`stationID`, `nameTH`, `areaTH`, `lat`, `long` (default number 0 when the
key is missing), `AQILast.PM25.value` (null when the `PM25` dict or its
`value` key is missing), `AQILast.AQI.aqi`, and `AQILast.date`/`time`
(empty when missing). -/
structure Station where
  stationID : String
  nameTH : String
  areaTH : String
  lat : JVal
  long : JVal
  pm25value : JVal
  aqiValue : JVal
  dateStr : String
  timeStr : String
  deriving DecidableEq, Repr

/-- Embedding of `BANGKOK_STATIONS`. -/
def BANGKOK_STATIONS : List String :=
  ["02t", "03t", "05t", "10t", "11t", "12t", "50t", "52t", "53t", "54t",
    "59t", "61t"]

/-- One AQI level bucket of `AQI_LEVELS`. -/
structure AqiLevel where
  max : Rat
  level : String
  color : String
  advice : String
  deriving DecidableEq, Repr

/-- Embedding of `AQI_LEVELS`. -/
def AQI_LEVELS : List AqiLevel :=
  [ { max := 25, level := "ดีมาก", color := "🟦",
      advice := "คุณภาพอากาศดีมาก เหมาะสำหรับกิจกรรมกลางแจ้งและการท่องเที่ยว" }
  , { max := 50, level := "ดี", color := "🟩",
      advice := "คุณภาพอากาศดี สามารถทำกิจกรรมกลางแจ้งได้ตามปกติ" }
  , { max := 100, level := "ปานกลาง", color := "🟨",
      advice := "ประชาชนทั่วไปสามารถทำกิจกรรมกลางแจ้งได้ตามปกติ ผู้ที่ต้องดูแลสุขภาพเป็นพิเศษควรลดกิจกรรมกลางแจ้ง" }
  , { max := 200, level := "เริ่มมีผลกระทบต่อสุขภาพ", color := "🟧",
      advice := "ควรลดกิจกรรมกลางแจ้ง ผู้ที่มีโรคประจำตัวควรสวมหน้ากาก N95" }
  , { max := 300, level := "มีผลกระทบต่อสุขภาพ", color := "🟥",
      advice := "หลีกเลี่ยงกิจกรรมกลางแจ้ง สวมหน้ากาก N95 หากจำเป็นต้องออกนอกบ้าน" }
  , { max := 999, level := "อันตราย", color := "🟤",
      advice := "งดกิจกรรมกลางแจ้งทุกชนิด ปิดประตูหน้าต่าง ใช้เครื่องฟอกอากาศ" } ]

/-- Embedding of `DustService.get_aqi_level`: first bucket whose `max`
bounds the reading, else the last bucket. -/
def get_aqi_level (pm25 : Rat) : AqiLevel :=
  match AQI_LEVELS.find? (fun l => pm25 ≤ l.max) with
  | some l => l
  | none => (AQI_LEVELS.getLast?).getD
      { max := 999, level := "", color := "", advice := "" }

/-- The PM2.5 values `get_bangkok_average` collects: stations in the
Bangkok list whose PM2.5 value is truthy, parses as a float, and is
strictly positive (absent, zero and unparsable readings fall out). -/
def bangkokPM25Values (stations : List Station) : List Rat :=
  stations.filterMap (fun station =>
    if BANGKOK_STATIONS.contains station.stationID then
      if station.pm25value.truthy then
        match station.pm25value.toFloat with
        | some value => if 0 < value then some value else none
        | none => none
      else none
    else none)

/-- The summary record `get_bangkok_average` returns. -/
structure BangkokReport where
  area : String
  pm25 : Rat
  station_count : Nat
  min : Rat
  max : Rat
  deriving DecidableEq, Repr

/-- Embedding of `DustService.get_bangkok_average` on a fetched station
list: average / min / max of the valid Bangkok readings, none when the
list or the valid readings are empty. -/
def get_bangkok_average (stations : List Station) : Option BangkokReport :=
  if stations.isEmpty then none
  else
    match bangkokPM25Values stations with
    | [] => none
    | v :: rest =>
      let vs := v :: rest
      some { area := "กรุงเทพมหานคร"
             pm25 := roundTo1 (vs.sum / vs.length)
             station_count := vs.length
             min := roundTo1 (rest.foldl Min.min v)
             max := roundTo1 (rest.foldl Max.max v) }

/-- The dict `get_nearest_station` builds for the running nearest
station. -/
structure NearestInfo where
  station_name : String
  area : String
  pm25 : JVal
  aqi : JVal
  time : String
  distance : Rat
  lat : Rat
  lng : Rat
  deriving DecidableEq, Repr

/-- The candidate record built from a station at parsed coordinates and
exact distance `d` (the stored `distance` is rounded to one decimal). -/
def mkNearestInfo (station : Station) (d stationLat stationLng : Rat) :
    NearestInfo :=
  { station_name := station.nameTH
    area := station.areaTH
    pm25 := station.pm25value
    aqi := station.aqiValue
    time := String.mk (stripChars (station.dateStr ++ " " ++ station.timeStr).data)
    distance := roundTo1 d
    lat := stationLat
    lng := stationLng }

/-- Embedding of the per-station step of `get_nearest_station`: skip the
station when its coordinates fail to parse (`ValueError`/`TypeError`) or
are zero, or its PM2.5 value is Python-falsy; otherwise keep it iff its
distance is strictly below the running minimum.  The accumulator carries
the exact (unrounded) running minimum distance.  `dist` abstracts the
floating-point haversine formula. -/
def nearestStep (dist : Rat → Rat → Rat → Rat → Rat) (lat lng : Rat)
    (best : Option (NearestInfo × Rat)) (station : Station) :
    Option (NearestInfo × Rat) :=
  match station.lat.toFloat, station.long.toFloat with
  | some stationLat, some stationLng =>
    if stationLat = 0 ∨ stationLng = 0 then best
    else
      let d := dist lat lng stationLat stationLng
      if ¬station.pm25value.truthy then best
      else
        match best with
        | none => some (mkNearestInfo station d stationLat stationLng, d)
        | some b =>
          if d < b.2 then
            some (mkNearestInfo station d stationLat stationLng, d)
          else best
  | _, _ => best

/-- Embedding of `DustService.get_nearest_station` on a fetched station
list. -/
def get_nearest_station (dist : Rat → Rat → Rat → Rat → Rat)
    (lat lng : Rat) (stations : List Station) : Option NearestInfo :=
  if stations.isEmpty then none
  else (stations.foldl (nearestStep dist lat lng) none).map Prod.fst

/-- Decimal rendering of the exact readings interpolated into report
strings (Python prints the float; values here carry at most one decimal). -/
def ratDecStr (x : Rat) : String :=
  if x.den = 1 then toString x.num
  else if (x * 10).den = 1 then
    let scaled := (x * 10).num
    let sign := if scaled < 0 then "-" else ""
    let n := scaled.natAbs
    sign ++ toString (n / 10) ++ "." ++ toString (n % 10)
  else toString x

/-- The fallback text of `get_dust_report_by_location`. -/
def noNearbyStationMessage : String :=
  "ขออภัยค่ะ ไม่พบสถานีวัดค่าฝุ่นใกล้ตำแหน่งของคุณ\n\nกรุณาลองใหม่อีกครั้ง หรือตรวจสอบได้ที่:\n🌐 http://air4thai.pcd.go.th/\n📱 แอป Air4Thai"

/-- The formatted nearest-station report of
`get_dust_report_by_location`. -/
def formatNearestReport (info : NearestInfo) (pm25Val : Rat) : String :=
  let level := get_aqi_level pm25Val
  let base :=
    "📍 สถานีใกล้คุณที่สุด: " ++ info.station_name ++ "\n"
      ++ "📍 พื้นที่: " ++ info.area ++ "\n"
      ++ "📏 ระยะห่าง: " ++ ratDecStr info.distance ++ " กม.\n\n"
      ++ level.color ++ " ค่า PM2.5: " ++ ratDecStr pm25Val ++ " μg/m³\n"
      ++ "📊 ระดับ: " ++ level.level ++ "\n\n"
      ++ "💡 คำแนะนำ:\n" ++ level.advice ++ "\n"
  let withTime :=
    if info.time ≠ "" then base ++ "\n🕐 อัพเดทล่าสุด: " ++ info.time
    else base
  withTime ++ "\n\n🌐 ข้อมูลจาก: กรมควบคุมมลพิษ (Air4Thai)"

/-- Embedding of `DustService.get_dust_report_by_location`: nearest-station
lookup, then the formatted report when the PM2.5 value of the result is truthy
and parses, else the fallback text. -/
def get_dust_report_by_location (dist : Rat → Rat → Rat → Rat → Rat)
    (lat lng : Rat) (stations : List Station) : String :=
  match get_nearest_station dist lat lng stations with
  | some info =>
    if info.pm25.truthy then
      match info.pm25.toFloat with
      | some pm25Val => formatNearestReport info pm25Val
      | none => noNearbyStationMessage
    else noNearbyStationMessage
  | none => noNearbyStationMessage

/-- Embedding of `MessageHandler.handle_location`: regardless of the
current state of the session, reset it to IDLE and return the nearest-station
dust report for the shared coordinates. -/
def handle_location (dist : Rat → Rat → Rat → Rat → Rat)
    (s : UserSession) (lat lng : Rat) (stations : List Station) :
    UserSession × String :=
  ({ s with state := ConversationState.IDLE },
    get_dust_report_by_location dist lat lng stations)

/-! ## Concrete scenario material shared by several theorems -/

/-- An environment with empty static tables (their content never affects
the state machine). -/
def envEmpty : Env := ⟨[], []⟩

/-- Nine first-option answers, one per question. -/
def nineOnes : List String := List.replicate 9 "1"

/-- Run a sequence of answer texts through `process_answer`, keeping the
session. -/
def runAssessmentSessions (env : Env) (s : UserSession)
    (texts : List String) : UserSession :=
  texts.foldl (fun st t => (process_answer env st t).1) s

/-- Run a sequence of answer texts through `process_answer` from a given
session and already-collected flag list, collecting the `is_complete` flag
of every call. -/
def runAssessmentFlagsFrom (env : Env) (start : UserSession × List Bool)
    (texts : List String) : UserSession × List Bool :=
  texts.foldl
    (fun acc t =>
      let r := process_answer env acc.1 t
      (r.1, acc.2 ++ [r.2.2]))
    start

/-- Run a sequence of answer texts through `process_answer`, collecting
the `is_complete` flag of every call. -/
def runAssessmentFlags (env : Env) (s : UserSession) (texts : List String) :
    UserSession × List Bool :=
  runAssessmentFlagsFrom env (s, []) texts

/-- The first assessment question (used to instantiate witnesses). -/
def coughQuestion : Question :=
  (get_question 0).getD { id := "", question := "", options := [] }

/-- A session sitting at question 0 of an assessment. -/
def sessionAtQ0 : UserSession :=
  { user_id := "u"
    state := ConversationState.ASSESSMENT
    current_question_index := 0
    answers := []
    total_score := 0 }

/-! ## Lemmas about the answer scanner -/

/-- The scanning loop returns exactly the first in-range digit of the
character list: it equals `find?` of the in-range test over all digits. -/
theorem scanAnswerChars_eq_find (m : Nat) (cs : List Char) :
    scanAnswerChars m cs
      = ((cs.filter Char.isDigit).map (fun c => c.toNat - 48)).find?
          (fun n => decide (1 ≤ n) && decide (n ≤ m)) := by
  induction cs with
  | nil => rfl
  | cons c rest ih =>
    by_cases hd : c.isDigit
    · rw [List.filter_cons_of_pos hd, List.map_cons, List.find?_cons]
      by_cases hr : 1 ≤ c.toNat - 48 ∧ c.toNat - 48 ≤ m
      · have hp : (decide (1 ≤ c.toNat - 48) && decide (c.toNat - 48 ≤ m))
            = true := by
          simp only [Bool.and_eq_true, decide_eq_true_eq]
          exact hr
        rw [hp]
        simp [scanAnswerChars, hd, hr]
      · have hp : (decide (1 ≤ c.toNat - 48) && decide (c.toNat - 48 ≤ m))
            = false := by
          simp only [Bool.and_eq_false_iff, decide_eq_false_iff_not]
          omega
        rw [hp]
        simp only [scanAnswerChars, hd, if_true, hr, if_false]
        exact ih
    · rw [List.filter_cons_of_neg (by simp [hd])]
      simp only [scanAnswerChars, hd, if_false]
      exact ih

/-- If every digit of the character list is out of range, the scan fails. -/
theorem scanAnswerChars_none (m : Nat) (cs : List Char)
    (h : ∀ c ∈ cs, c.isDigit = true →
      ¬(1 ≤ c.toNat - 48 ∧ c.toNat - 48 ≤ m)) :
    scanAnswerChars m cs = none := by
  induction cs with
  | nil => rfl
  | cons c rest ih =>
    by_cases hd : c.isDigit
    · have hr := h c (by simp) hd
      simp only [scanAnswerChars, hd, if_true, hr, if_false]
      exact ih (fun x hx => h x (by simp [hx]))
    · simp only [scanAnswerChars, hd, if_false]
      exact ih (fun x hx => h x (by simp [hx]))

/-- A successful scan yields a value inside `[1, m]`. -/
theorem scanAnswerChars_bounds (m : Nat) (cs : List Char) (n : Nat)
    (h : scanAnswerChars m cs = some n) : 1 ≤ n ∧ n ≤ m := by
  induction cs with
  | nil => simp [scanAnswerChars] at h
  | cons c rest ih =>
    rw [scanAnswerChars] at h
    split at h
    · dsimp only at h
      split at h
      next hr =>
        injection h with h
        omega
      next hr => exact ih h
    · exact ih h

/-! ## Claim theorems -/

/-- C1: for every sequence of `add_answer` calls from a fresh session, the
total score equals the sum of the values of the current answers mapping at
every observable point (`add_answer` recomputes it and the fresh session
satisfies it), and re-answering the same question identifier overwrites the
previous score rather than accumulating: two consecutive `add_answer`
calls for the same identifier collapse to the last one. -/
theorem c1_total_score_invariant :
    (∀ (uid : String) (calls : List (String × Int)),
      (calls.foldl (fun s c => add_answer s c.1 c.2)
          (freshSession uid)).total_score
        = dictValuesSum
            ((calls.foldl (fun s c => add_answer s c.1 c.2)
              (freshSession uid)).answers))
    ∧ (∀ (s : UserSession) (qid : String) (v w : Int),
      add_answer (add_answer s qid v) qid w = add_answer s qid w) := by
  constructor
  · have key : ∀ (calls : List (String × Int)) (s0 : UserSession),
        s0.total_score = dictValuesSum s0.answers →
        (calls.foldl (fun s c => add_answer s c.1 c.2) s0).total_score
          = dictValuesSum
              ((calls.foldl (fun s c => add_answer s c.1 c.2) s0).answers) := by
      intro calls
      induction calls with
      | nil => intro s0 h; exact h
      | cons c rest ih => intro s0 _; exact ih _ rfl
    intro uid calls
    exact key calls (freshSession uid) rfl
  · have dictSet_dictSet : ∀ (m : List (String × Int)) (k : String)
        (v w : Int), dictSet (dictSet m k v) k w = dictSet m k w := by
      intro m k v w
      induction m with
      | nil => simp [dictSet]
      | cons p rest ih =>
        by_cases hp : p.1 = k
        · simp [dictSet, hp]
        · simp [dictSet, hp, ih]
    intro s qid v w
    simp [add_answer, dictSet_dictSet]

/-- C3 counterexample: on the text "91" with 3 options, the parser the
spec describes (fail unless the FIRST digit is in range) yields none,
while the code returns 1 from the later in-range digit. -/
theorem c3_first_digit_counterexample :
    specParseAnswer "91" 3 = none ∧ parse_answer "91" 3 = some 1 := by
  constructor
  · decide
  · decide

/-- C3 amended: `_parse_answer` scans for the first digit that falls
within `[1, maxOptions]`; out-of-range digits are skipped rather than
causing failure, and parsing fails only if no digit of the text is in
range. -/
theorem c3_parse_first_in_range_digit :
    ∀ (answer : String) (maxOptions : Nat),
      parse_answer answer maxOptions
        = (((stripChars answer.data).filter Char.isDigit).map
              (fun c => c.toNat - 48)).find?
            (fun n => decide (1 ≤ n) && decide (n ≤ maxOptions)) := by
  intro answer maxOptions
  exact scanAnswerChars_eq_find maxOptions (stripChars answer.data)

/-- C10: whenever `_parse_answer` returns a value `n` for a question with
`k` options, `1 ≤ n ≤ k`, so the indexing `options[n - 1]` performed by
`process_answer` is in bounds for every option list of length `k` (the
out-of-bounds branch is unreachable). -/
theorem c10_parse_in_bounds :
    ∀ (answer : String) (k n : Nat),
      parse_answer answer k = some n →
      (1 ≤ n ∧ n ≤ k)
        ∧ ∀ opts : List QOption, opts.length = k →
            (opts.get? (n - 1)).isSome = true := by
  intro answer k n h
  have hb := scanAnswerChars_bounds k (stripChars answer.data) n h
  refine ⟨hb, ?_⟩
  intro opts hlen
  have hlt : n - 1 < opts.length := by omega
  simp [List.getElem?_eq_getElem, hlt]

/-- C10 witness: the parse of "2" against 3 options is in bounds and
indexes the first question option list safely. -/
theorem c10_parse_in_bounds_witness :
    ((1 ≤ 2 ∧ 2 ≤ 3)
      ∧ (coughQuestion.options.get? (2 - 1)).isSome = true) :=
  ⟨(c10_parse_in_bounds "2" 3 2 (by decide)).1,
    (c10_parse_in_bounds "2" 3 2 (by decide)).2 coughQuestion.options rfl⟩

/-- C5: in an assessment with a current question, an answer text all of
whose digits are out of range (in particular one containing no digit at
all) leaves the session — its question index and answers mapping included —
unchanged and returns the re-prompt naming the valid numeric range, with
`is_complete = false`. -/
theorem c5_range_validation :
    ∀ (env : Env) (s : UserSession) (q : Question) (answer : String),
      s.state = ConversationState.ASSESSMENT →
      get_question s.current_question_index = some q →
      (∀ c ∈ stripChars answer.data, c.isDigit = true →
        ¬(1 ≤ c.toNat - 48 ∧ c.toNat - 48 ≤ q.options.length)) →
      process_answer env s answer
        = (s, some ("กรุณาตอบเป็นตัวเลข 1-" ++ toString q.options.length
            ++ " ค่ะ"), false) := by
  intro env s q answer hstate hq hdig
  have hparse : parse_answer answer q.options.length = none :=
    scanAnswerChars_none q.options.length (stripChars answer.data) hdig
  simp [process_answer, hstate, hq, hparse]

/-- C5 witness: the answer "0" at question 0 (its only digit, 0, is below
the valid range 1-3) is re-prompted and changes nothing. -/
theorem c5_range_validation_witness :
    process_answer envEmpty sessionAtQ0 "0"
      = (sessionAtQ0,
          some ("กรุณาตอบเป็นตัวเลข 1-" ++ toString coughQuestion.options.length
            ++ " ค่ะ"), false) :=
  c5_range_validation envEmpty sessionAtQ0 coughQuestion "0" rfl rfl
    (by decide)

set_option maxHeartbeats 2000000 in
/-- C2 (code bug): completing a full assessment (nine valid first-option
answers from a fresh start) transitions the state from ASSESSMENT back to
IDLE, yet leaves the answers mapping with all nine recorded entries —
`_complete_assessment` sets only the state under its `Reset session`
comment and never clears `answers`, contradicting the spec invariant that
`answers` is cleared on the completion reset (cancel, by contrast, goes
through `UserSession.reset`, which does clear it). -/
theorem c2_completion_keeps_answers :
    (runAssessmentSessions envEmpty (start_assessment (freshSession "u")).1
        nineOnes).state = ConversationState.IDLE
    ∧ (runAssessmentSessions envEmpty (start_assessment (freshSession "u")).1
        nineOnes).answers.length = 9
    ∧ (runAssessmentSessions envEmpty (start_assessment (freshSession "u")).1
        nineOnes).answers ≠ []
    ∧ (cancel_assessment (runAssessmentSessions envEmpty
        (start_assessment (freshSession "u")).1 nineOnes)).1.answers = [] := by
  refine ⟨rfl, rfl, ?_, rfl⟩
  decide

/-- The answers mapping after answering the first `i` questions with
option 1 (option 1 of the age question scores 1, the rest score 0). -/
def stageAnswers : Nat → List (String × Int)
  | 0 => []
  | 1 => [("cough", 0)]
  | 2 => [("cough", 0), ("breathing", 0)]
  | 3 => [("cough", 0), ("breathing", 0), ("eyes", 0)]
  | 4 => [("cough", 0), ("breathing", 0), ("eyes", 0), ("nose", 0)]
  | 5 => [("cough", 0), ("breathing", 0), ("eyes", 0), ("nose", 0),
      ("skin", 0)]
  | 6 => [("cough", 0), ("breathing", 0), ("eyes", 0), ("nose", 0),
      ("skin", 0), ("headache", 0)]
  | 7 => [("cough", 0), ("breathing", 0), ("eyes", 0), ("nose", 0),
      ("skin", 0), ("headache", 0), ("age", 1)]
  | 8 => [("cough", 0), ("breathing", 0), ("eyes", 0), ("nose", 0),
      ("skin", 0), ("headache", 0), ("age", 1), ("condition", 0)]
  | _ => [("cough", 0), ("breathing", 0), ("eyes", 0), ("nose", 0),
      ("skin", 0), ("headache", 0), ("age", 1), ("condition", 0),
      ("outdoor", 0)]

/-- The in-assessment session after `i` first-option answers. -/
def stage (i : Nat) (uid : String) : UserSession :=
  { user_id := uid
    state := ConversationState.ASSESSMENT
    current_question_index := i
    answers := stageAnswers i
    total_score := dictValuesSum (stageAnswers i) }

/-- The session after the ninth answer completes the assessment. -/
def sessionDone (uid : String) : UserSession :=
  { user_id := uid
    state := ConversationState.IDLE
    current_question_index := 9
    answers := stageAnswers 9
    total_score := dictValuesSum (stageAnswers 9) }

/-- One first-option answer advances stage `j` to stage `j + 1` (with the
ninth answer also flipping the state to IDLE). -/
theorem stage_step_session (env : Env) (uid : String) (j : Nat)
    (hj : j < 9) :
    (process_answer env (stage j uid) "1").1
      = if j = 8 then sessionDone uid else stage (j + 1) uid := by
  interval_cases j <;> rfl

/-- The `is_complete` flag of one first-option answer at stage `j` is true
exactly for the ninth answer. -/
theorem stage_step_flag (env : Env) (uid : String) (j : Nat) (hj : j < 9) :
    (process_answer env (stage j uid) "1").2.2 = decide (j = 8) := by
  interval_cases j <;> rfl

/-- Running `i` first-option answers from stage `j` lands on stage `j + i`
(the completed session once the ninth answer has been given). -/
theorem run_stage_gen (env : Env) (uid : String) :
    ∀ (i j : Nat), j + i ≤ 9 →
      runAssessmentSessions env (stage j uid) (List.replicate i "1")
        = if j + i = 9 ∧ 0 < i then sessionDone uid
          else stage (j + i) uid := by
  intro i
  induction i with
  | zero =>
    intro j h
    simp [runAssessmentSessions]
  | succ i ih =>
    intro j h
    have hj : j < 9 := by omega
    rw [List.replicate_succ]
    have hrun : runAssessmentSessions env (stage j uid)
          ("1" :: List.replicate i "1")
        = runAssessmentSessions env
            ((process_answer env (stage j uid) "1").1)
            (List.replicate i "1") := rfl
    rw [hrun, stage_step_session env uid j hj]
    by_cases h8 : j = 8
    · subst h8
      have hi : i = 0 := by omega
      subst hi
      simp [runAssessmentSessions]
    · rw [if_neg h8, ih (j + 1) (by omega)]
      by_cases h9 : j + 1 + i = 9 ∧ 0 < i
      · rw [if_pos h9, if_pos (by omega)]
      · have hne : ¬(j + (i + 1) = 9 ∧ 0 < i + 1) := by
          intro hc
          rcases hc with ⟨hc1, _⟩
          have hi0 : i = 0 := by
            by_contra hi0
            exact h9 ⟨by omega, by omega⟩
          omega
        rw [if_neg h9, if_neg hne]
        have harith : j + 1 + i = j + (i + 1) := by omega
        rw [harith]

/-- The flags collected for the answers at stages `j, j+1, ..., j+i-1`. -/
def expectedFlags (j i : Nat) : List Bool :=
  (List.range i).map (fun t => decide (j + t = 8))

/-- Running `i` first-option answers from stage `j` appends exactly the
per-stage completion flags. -/
theorem run_flags_gen (env : Env) (uid : String) :
    ∀ (i j : Nat) (acc : List Bool), j + i ≤ 9 →
      (runAssessmentFlagsFrom env (stage j uid, acc)
          (List.replicate i "1")).2
        = acc ++ expectedFlags j i := by
  intro i
  induction i with
  | zero =>
    intro j acc h
    simp [runAssessmentFlagsFrom, expectedFlags]
  | succ i ih =>
    intro j acc h
    have hj : j < 9 := by omega
    rw [List.replicate_succ]
    have hrun : (runAssessmentFlagsFrom env (stage j uid, acc)
          ("1" :: List.replicate i "1"))
        = runAssessmentFlagsFrom env
            ((process_answer env (stage j uid) "1").1,
              acc ++ [(process_answer env (stage j uid) "1").2.2])
            (List.replicate i "1") := rfl
    rw [hrun, stage_step_session env uid j hj,
      stage_step_flag env uid j hj]
    have hexp : expectedFlags j (i + 1)
        = decide (j = 8) :: expectedFlags (j + 1) i := by
      simp only [expectedFlags, List.range_succ_eq_map, List.map_cons,
        List.map_map, Nat.add_zero]
      apply congrArg
      apply List.map_congr_left
      intro t ht
      simp only [Function.comp_apply]
      rw [decide_eq_decide]
      omega
    by_cases h8 : j = 8
    · subst h8
      have hi : i = 0 := by omega
      subst hi
      simp [runAssessmentFlagsFrom, expectedFlags]
      rfl
    · rw [if_neg h8, ih (j + 1) (acc ++ [decide (j = 8)]) (by omega),
        hexp]
      rw [List.append_assoc]
      rfl
set_option maxHeartbeats 1000000 in
/-- C4: starting an assessment and submitting nine valid first-option
answers takes the question index through 0,1,...,9, returns
`is_complete = true` exactly once — on the ninth valid answer — and leaves
the session state IDLE. -/
theorem c4_sequencer_monotonicity :
    ∀ (env : Env) (s0 : UserSession),
      (start_assessment s0).1.current_question_index = 0
      ∧ ((List.range 10).map (fun i =>
            (runAssessmentSessions env (start_assessment s0).1
              (nineOnes.take i)).current_question_index)
          = List.range 10)
      ∧ (runAssessmentFlags env (start_assessment s0).1 nineOnes).2
          = List.replicate 8 false ++ [true]
      ∧ (runAssessmentSessions env (start_assessment s0).1 nineOnes).state
          = ConversationState.IDLE := by
  intro env s0
  have hstart : (start_assessment s0).1 = stage 0 s0.user_id := rfl
  have hnine : nineOnes = List.replicate 9 "1" := rfl
  refine ⟨rfl, ?_, ?_, ?_⟩
  · apply List.ext_getElem
    · simp
    · intro i h1 h2
      simp only [List.getElem_map, List.getElem_range,
        List.length_map, List.length_range] at h1 h2 ⊢
      have hi9 : i ≤ 9 := by omega
      have htake : nineOnes.take i = List.replicate i "1" := by
        rw [hnine, List.take_replicate]
        congr 1
        omega
      rw [hstart, htake, run_stage_gen env s0.user_id i 0 (by omega)]
      by_cases hc : 0 + i = 9 ∧ 0 < i
      · rw [if_pos hc]
        have : i = 9 := by omega
        subst this
        rfl
      · rw [if_neg hc]
        simp [stage]
  · rw [hstart, hnine]
    have : runAssessmentFlags env (stage 0 s0.user_id)
          (List.replicate 9 "1")
        = runAssessmentFlagsFrom env (stage 0 s0.user_id, [])
            (List.replicate 9 "1") := rfl
    rw [this, run_flags_gen env s0.user_id 9 0 [] (by omega)]
    rfl
  · rw [hstart, hnine, run_stage_gen env s0.user_id 9 0 (by omega)]
    rw [if_pos ⟨by omega, by omega⟩]
    rfl

/-- C6: a location message, from any session state whatsoever, resets the
state to IDLE and returns exactly the nearest-station dust report computed
for the shared coordinates. -/
theorem c6_location_resets_and_reports :
    ∀ (dist : Rat → Rat → Rat → Rat → Rat) (s : UserSession)
      (lat lng : Rat) (stations : List Station),
      (handle_location dist s lat lng stations).1.state
          = ConversationState.IDLE
      ∧ (handle_location dist s lat lng stations).2
          = get_dust_report_by_location dist lat lng stations := by
  intro dist s lat lng stations
  exact ⟨rfl, rfl⟩

/-- C7: on load, a stored session strictly older than the 24-hour timeout
is excluded from the in-memory set, and one strictly inside the threshold
is loaded. -/
theorem c7_session_expiry :
    ∀ (now : Int) (file : List (String × StoredSession))
      (entry : String × StoredSession),
      entry ∈ file →
      (sessionTimeout < now - entry.2.last_activity →
        entry ∉ loadStates now file)
      ∧ (now - entry.2.last_activity < sessionTimeout →
        entry ∈ loadStates now file) := by
  intro now file entry hmem
  constructor
  · intro hold hin
    have := (List.mem_filter.1 hin).2
    have hlt : now - entry.2.last_activity < sessionTimeout := by
      simpa using this
    omega
  · intro hfresh
    exact List.mem_filter.2 ⟨hmem, by simpa using hfresh⟩

/-- A stored session last active at time 0. -/
def staleStored : StoredSession :=
  { user_id := "old"
    state := ConversationState.IDLE
    current_question_index := 0
    answers := []
    total_score := 0
    last_activity := 0 }

/-- A stored session last active at time 150000000000 (microseconds). -/
def freshStored : StoredSession :=
  { user_id := "new"
    state := ConversationState.ASSESSMENT
    current_question_index := 2
    answers := [("cough", 1)]
    total_score := 1
    last_activity := 150000000000 }

/-- A two-entry persisted session file. -/
def demoFile : List (String × StoredSession) :=
  [("old", staleStored), ("new", freshStored)]

/-- C7 witness: at time 200000000000 μs, the session last active at 0
(age ≈ 55.6 h) is dropped and the one last active at 150000000000
(age ≈ 13.9 h) is loaded. -/
theorem c7_session_expiry_witness :
    ("old", staleStored) ∉ loadStates 200000000000 demoFile
    ∧ ("new", freshStored) ∈ loadStates 200000000000 demoFile :=
  ⟨(c7_session_expiry 200000000000 demoFile ("old", staleStored)
      (by decide)).1 (by decide),
    (c7_session_expiry 200000000000 demoFile ("new", freshStored)
      (by decide)).2 (by decide)⟩

/-! ## State-transition lemmas for the conversation router -/

/-- `process_answer` either leaves the session state alone or moves it to
IDLE (on completion). -/
theorem process_answer_state (env : Env) (s : UserSession)
    (answer : String) :
    (process_answer env s answer).1.state = s.state
    ∨ (process_answer env s answer).1.state = ConversationState.IDLE := by
  unfold process_answer
  split
  · exact Or.inl rfl
  · split
    · exact Or.inr rfl
    · split
      · exact Or.inl rfl
      · split
        · exact Or.inl rfl
        · dsimp only
          split
          · exact Or.inr rfl
          · exact Or.inl rfl

/-- The keyword cascade after the assessment branches leaves the state
alone or moves it to AWAITING_LOCATION (check-dust) or ASSESSMENT
(start). -/
theorem handleTextTail_state (env : Env) (s : UserSession)
    (textLower text : String) :
    (handleTextTail env s textLower text).1.state = s.state
    ∨ (handleTextTail env s textLower text).1.state
        = ConversationState.AWAITING_LOCATION
    ∨ (handleTextTail env s textLower text).1.state
        = ConversationState.ASSESSMENT := by
  unfold handleTextTail
  split
  · exact Or.inl rfl
  · split
    · exact Or.inl rfl
    · split
      · exact Or.inl rfl
      · split
        · exact Or.inr (Or.inl rfl)
        · split
          · exact Or.inr (Or.inr rfl)
          · split
            · split
              · exact Or.inl rfl
              · exact Or.inl rfl
            · exact Or.inl rfl

/-- `handle_message` only ever produces the initial state or one of IDLE,
ASSESSMENT, AWAITING_LOCATION. -/
theorem handle_message_state (env : Env) (s : UserSession) (text : String) :
    (handle_message env s text).1.state = s.state
    ∨ (handle_message env s text).1.state = ConversationState.IDLE
    ∨ (handle_message env s text).1.state = ConversationState.ASSESSMENT
    ∨ (handle_message env s text).1.state
        = ConversationState.AWAITING_LOCATION := by
  unfold handle_message
  dsimp only
  split
  · split
    · exact Or.inr (Or.inl rfl)
    · exact Or.inr (Or.inl rfl)
  · split
    · rename_i hassessment _
      split
      · split
        · rcases process_answer_state env s text with h | h
          · exact Or.inl h
          · exact Or.inr (Or.inl h)
        · rcases handleTextTail_state env
              (process_answer env s text).1 (pyLowerStrip text) text with
              h | h | h
          · rcases process_answer_state env s text with h2 | h2
            · exact Or.inl (h.trans h2)
            · exact Or.inr (Or.inl (h.trans h2))
          · exact Or.inr (Or.inr (Or.inr h))
          · exact Or.inr (Or.inr (Or.inl h))
      · rcases handleTextTail_state env
            (process_answer env s text).1 (pyLowerStrip text) text with
            h | h | h
        · rcases process_answer_state env s text with h2 | h2
          · exact Or.inl (h.trans h2)
          · exact Or.inr (Or.inl (h.trans h2))
        · exact Or.inr (Or.inr (Or.inr h))
        · exact Or.inr (Or.inr (Or.inl h))
    · rcases handleTextTail_state env s (pyLowerStrip text) text with
          h | h | h
      · exact Or.inl h
      · exact Or.inr (Or.inr (Or.inr h))
      · exact Or.inr (Or.inr (Or.inl h))

/-- C9: from any reachable state (IDLE, ASSESSMENT or AWAITING_LOCATION),
processing a text message or a location message never produces the
reserved states WAITING_CONFIRM or FAQ_MENU: the resulting state is again
one of the three reachable ones. -/
theorem c9_reserved_states_unreachable :
    ∀ (env : Env) (s : UserSession) (text : String)
      (dist : Rat → Rat → Rat → Rat → Rat) (lat lng : Rat)
      (stations : List Station),
      (s.state = ConversationState.IDLE
        ∨ s.state = ConversationState.ASSESSMENT
        ∨ s.state = ConversationState.AWAITING_LOCATION) →
      ((handle_message env s text).1.state = ConversationState.IDLE
        ∨ (handle_message env s text).1.state = ConversationState.ASSESSMENT
        ∨ (handle_message env s text).1.state
            = ConversationState.AWAITING_LOCATION)
      ∧ (handle_message env s text).1.state
          ≠ ConversationState.WAITING_CONFIRM
      ∧ (handle_message env s text).1.state ≠ ConversationState.FAQ_MENU
      ∧ (handle_location dist s lat lng stations).1.state
          = ConversationState.IDLE
      ∧ (handle_location dist s lat lng stations).1.state
          ≠ ConversationState.WAITING_CONFIRM
      ∧ (handle_location dist s lat lng stations).1.state
          ≠ ConversationState.FAQ_MENU := by
  intro env s text dist lat lng stations hs
  have hgood : (handle_message env s text).1.state = ConversationState.IDLE
      ∨ (handle_message env s text).1.state = ConversationState.ASSESSMENT
      ∨ (handle_message env s text).1.state
          = ConversationState.AWAITING_LOCATION := by
    rcases handle_message_state env s text with h | h | h | h
    · rw [h]; exact hs
    · exact Or.inl h
    · exact Or.inr (Or.inl h)
    · exact Or.inr (Or.inr h)
  refine ⟨hgood, ?_, ?_, rfl, ?_, ?_⟩
  · rcases hgood with h | h | h <;> rw [h] <;> intro hc <;> cases hc
  · rcases hgood with h | h | h <;> rw [h] <;> intro hc <;> cases hc
  · intro hc
    have : ConversationState.IDLE = ConversationState.WAITING_CONFIRM := hc
    cases this
  · intro hc
    have : ConversationState.IDLE = ConversationState.FAQ_MENU := hc
    cases this

/-- C9 witness: a concrete greeting from a fresh IDLE session, together
with a location message. -/
theorem c9_reserved_states_unreachable_witness :
    ((handle_message envEmpty (freshSession "u") "hello").1.state
        = ConversationState.IDLE
      ∨ (handle_message envEmpty (freshSession "u") "hello").1.state
          = ConversationState.ASSESSMENT
      ∨ (handle_message envEmpty (freshSession "u") "hello").1.state
          = ConversationState.AWAITING_LOCATION)
    ∧ (handle_message envEmpty (freshSession "u") "hello").1.state
        ≠ ConversationState.WAITING_CONFIRM
    ∧ (handle_message envEmpty (freshSession "u") "hello").1.state
        ≠ ConversationState.FAQ_MENU
    ∧ (handle_location (fun _ _ _ _ => 1) (freshSession "u") 13 100 []).1.state
        = ConversationState.IDLE
    ∧ (handle_location (fun _ _ _ _ => 1) (freshSession "u") 13 100 []).1.state
        ≠ ConversationState.WAITING_CONFIRM
    ∧ (handle_location (fun _ _ _ _ => 1) (freshSession "u") 13 100 []).1.state
        ≠ ConversationState.FAQ_MENU :=
  c9_reserved_states_unreachable envEmpty (freshSession "u") "hello"
    (fun _ _ _ _ => 1) 13 100 [] (Or.inl rfl)

/-! ## Station-validity lemmas for the dust service -/

/-- A constant stand-in for the haversine distance. -/
def distOne : Rat → Rat → Rat → Rat → Rat := fun _ _ _ _ => 1

/-- A station with valid nonzero coordinates whose PM2.5 value is the
non-empty but unparsable string "N/A". -/
def stationUnparsable : Station :=
  { stationID := "99t"
    nameTH := "Station X"
    areaTH := "Area Y"
    lat := JVal.jnum 14
    long := JVal.jnum 100
    pm25value := JVal.jstr "N/A"
    aqiValue := JVal.jnull
    dateStr := ""
    timeStr := "" }

/-- A Bangkok station with a parsable positive PM2.5 reading. -/
def stationGood : Station :=
  { stationID := "02t"
    nameTH := "Station G"
    areaTH := "Bangkok"
    lat := JVal.jnum 14
    long := JVal.jnum 100
    pm25value := JVal.jstr "35.5"
    aqiValue := JVal.jnull
    dateStr := ""
    timeStr := "" }

/-- C8 counterexample: a station whose PM2.5 reading is the unparsable
string "N/A" (so `float` would raise on it) is nonetheless selected by the
nearest-station computation — `get_nearest_station` only checks Python
truthiness of the value and never parses it. -/
theorem c8_unparsable_in_nearest :
    stationUnparsable.pm25value.toFloat = none
    ∧ (get_nearest_station distOne 13 100 [stationUnparsable]).map
          NearestInfo.pm25
        = some (JVal.jstr "N/A") := by
  exact ⟨rfl, rfl⟩

/-- Every result the `get_nearest_station` fold can produce carries a
Python-truthy PM2.5 value. -/
theorem nearest_foldl_truthy (dist : Rat → Rat → Rat → Rat → Rat)
    (lat lng : Rat) :
    ∀ (stations : List Station) (best : Option (NearestInfo × Rat)),
      (∀ i d, best = some (i, d) → i.pm25.truthy = true) →
      ∀ i d,
        stations.foldl (nearestStep dist lat lng) best = some (i, d) →
        i.pm25.truthy = true := by
  intro stations
  induction stations with
  | nil => intro best hbest i d h; exact hbest i d h
  | cons st rest ih =>
    intro best hbest i d h
    rw [List.foldl_cons] at h
    refine ih _ ?_ i d h
    intro i2 d2 hstep
    unfold nearestStep at hstep
    split at hstep
    case h_1 sla sln heqla heqlo =>
      split at hstep
      case isTrue hzero => exact hbest i2 d2 hstep
      case isFalse hzero =>
        dsimp only at hstep
        split at hstep
        case isTrue hfalsy => exact hbest i2 d2 hstep
        case isFalse hfalsy =>
          have ht : st.pm25value.truthy = true := not_not.mp hfalsy
          split at hstep
          case h_1 =>
            injection hstep with hstep
            have h1 : i2 = mkNearestInfo st (dist lat lng sla sln) sla sln :=
              congrArg Prod.fst hstep.symm
            rw [h1]
            exact ht
          case h_2 b hbestsome =>
            split at hstep
            case isTrue hlt =>
              injection hstep with hstep
              have h1 : i2 = mkNearestInfo st (dist lat lng sla sln) sla sln :=
                congrArg Prod.fst hstep.symm
              rw [h1]
              exact ht
            case isFalse hlt => exact hbest i2 d2 hstep
    case h_2 => exact hbest i2 d2 hstep

/-- C8 amended: the Bangkok averaging uses exactly the stations with a
truthy, parsable, strictly positive PM2.5 reading (absent, zero and
unparsable readings fall out), while the nearest-station computation
excludes only stations whose PM2.5 value is Python-falsy (missing, null,
empty string or numeric zero): a non-empty unparsable string is retained
there, its value being parsed only later when the report is formatted. -/
theorem c8_reading_validity :
    (∀ (stations : List Station) (v : Rat),
      v ∈ bangkokPM25Values stations →
      ∃ st, st ∈ stations
        ∧ BANGKOK_STATIONS.contains st.stationID = true
        ∧ st.pm25value.truthy = true
        ∧ st.pm25value.toFloat = some v
        ∧ 0 < v)
    ∧ (∀ (dist : Rat → Rat → Rat → Rat → Rat) (lat lng : Rat)
        (stations : List Station) (info : NearestInfo),
      get_nearest_station dist lat lng stations = some info →
      info.pm25.truthy = true) := by
  constructor
  · intro stations v hv
    simp only [bangkokPM25Values, List.mem_filterMap] at hv
    obtain ⟨st, hst, hf⟩ := hv
    refine ⟨st, hst, ?_⟩
    split at hf
    case isTrue hcontains =>
      split at hf
      case isTrue htruthy =>
        split at hf
        case h_1 value hfloat =>
          split at hf
          case isTrue hpos =>
            injection hf with hf
            subst hf
            exact ⟨hcontains, htruthy, hfloat, hpos⟩
          case isFalse hpos => cases hf
        case h_2 hfloat => cases hf
      case isFalse htruthy => cases hf
    case isFalse hcontains => cases hf
  · intro dist lat lng stations info h
    unfold get_nearest_station at h
    split at h
    · cases h
    · obtain ⟨⟨i, d⟩, hfold, hfst⟩ := Option.map_eq_some'.1 h
      have := nearest_foldl_truthy dist lat lng stations none
        (by intro i2 d2 hc; cases hc) i d hfold
      rw [← hfst]
      exact this

/-- C8 witness: the nearest-station result over the single good Bangkok
station carries a truthy PM2.5 value. -/
theorem c8_reading_validity_witness :
    (mkNearestInfo stationGood (distOne 13 100 14 100) 14 100).pm25.truthy
      = true :=
  c8_reading_validity.2 distOne 13 100 [stationGood]
    (mkNearestInfo stationGood (distOne 13 100 14 100) 14 100) rfl

end HealthChatbot
